import Mathlib

/-!
Verification of the AFSA backend (`src/main.py`): a shallow embedding of the
FastAPI handlers as Lean functions, followed by theorems about the response
shapes the service promises.

The embedding conventions:
* Python `None` / optional strings become `Option String`.
* A Python dict built by item assignment becomes an association list
  `List (String × PyVal)` with `dictSet` mirroring `d[k] = v` (replace the
  first binding of `k`, append if absent).
* The wall clock (`datetime.utcnow().strftime(...)`), the importability of the
  optional `database` module, and the process environment are ambient process
  state; they are passed explicitly as a `World` value to the dispatcher.
* Pydantic validation of `SimulationRequest` is embedded over the JSON field
  shapes relevant to the claims: a field that is absent, JSON `null`, or a
  JSON string.  Both fields are declared `Optional[str]` in the source, so
  every such shape is accepted and defaults are applied for absent fields.
-/

/-- Values stored in a JSON-style response mapping: a string, Python `None`,
or a list of strings (the shapes occurring in `main.py`). -/
inductive PyVal where
  | str (s : String)
  | null
  | strList (l : List String)
deriving DecidableEq

/-- Python dict assignment `d[k] = v` on an association list: replace the
first binding of `k`, append a new binding if `k` is absent. -/
def dictSet (d : List (String × PyVal)) (k : String) (v : PyVal) :
    List (String × PyVal) :=
  match d with
  | [] => [(k, v)]
  | (k2, v2) :: rest =>
      if k2 = k then (k, v) :: rest else (k2, v2) :: dictSet rest k v

/-- Python dict lookup `d[k]` (first binding wins, as in `dictSet`). -/
def dictGet (d : List (String × PyVal)) (k : String) : Option PyVal :=
  match d with
  | [] => Option.none
  | (k2, v2) :: rest => if k2 = k then some v2 else dictGet rest k

/-- The JSON shape of one optional string field of a request body:
absent, JSON `null`, or a JSON string. -/
inductive StrField where
  | absent
  | null
  | str (s : String)
deriving DecidableEq

/-- `SimulationRequest` from `main.py` lines 21-23: both fields are declared
`Optional[str]` with defaults `"upi_scam"` and `"normal"`. -/
structure SimulationRequest where
  scenario : Option String := some "upi_scam"
  speed : Option String := some "normal"
deriving DecidableEq

/-- Pydantic validation of a request body against `SimulationRequest`:
each field is typed `Optional[str]`, so an absent field takes its default,
`null` becomes `None`, and any string value is accepted verbatim.  There is
no enum constraint in the source (the comment `# slow | normal | fast` is
not enforced). -/
def SimulationRequest.validate (scenario speed : StrField) :
    Except String SimulationRequest :=
  Except.ok
    { scenario :=
        match scenario with
        | StrField.absent => some "upi_scam"
        | StrField.null => Option.none
        | StrField.str s => some s
      speed :=
        match speed with
        | StrField.absent => some "normal"
        | StrField.null => Option.none
        | StrField.str s => some s }

/-- `SimulationEvent` from `main.py` lines 26-30. -/
structure SimulationEvent where
  t : String
  type : String
  message : String
  level : String
deriving DecidableEq

/-- The `base` list of `run_simulation` (lines 52-59): `(type, message, level)`
triples. -/
def simulationBase : List (String × String × String) :=
  [("info", "Monitoring… no threats detected.", "info"),
   ("ingest", "New SMS analysed.", "info"),
   ("detect", "Suspicious UPI intent detected.", "warn"),
   ("freeze", "Auto-freeze triggered: UPI channel frozen.", "critical"),
   ("legal", "Complaint drafted for cyber cell + RBI ombudsman.", "success"),
   ("recover", "Recovery workflow initiated with bank dispute.", "success")]

/-- `run_simulation` from `main.py` lines 43-62: stamps the single request
time `now` onto each entry of `simulationBase`; the request body is unused. -/
def run_simulation (_req : SimulationRequest) (now : String) :
    List SimulationEvent :=
  simulationBase.map (fun b => { t := now, type := b.1, message := b.2.1, level := b.2.2 })

/-- One entry of the `/api/timeline` response (lines 67-74). -/
structure TimelineItem where
  time : String
  title : String
  data : List (String × PyVal)
deriving DecidableEq

/-- The `/api/timeline` response shape (line 75). -/
structure TimelineResponse where
  items : List TimelineItem
deriving DecidableEq

/-- `get_timeline` from `main.py` lines 65-75: a constant six-entry list. -/
def get_timeline : TimelineResponse :=
  { items :=
      [{ time := "12:00", title := "Fraud request created",
         data := [("channel", PyVal.str "UPI"), ("amount", PyVal.str "₹9,999"),
                  ("upi_id", PyVal.str "abc@bank")] },
       { time := "12:02", title := "AFSA detected mismatch",
         data := [("pattern", PyVal.str "merchant-risk-score>0.82"),
                  ("device_ip", PyVal.str "103.25.*")] },
       { time := "12:03", title := "UPI frozen",
         data := [("action", PyVal.str "temporary_freeze"),
                  ("duration", PyVal.str "30 min")] },
       { time := "12:05", title := "Complaint drafted",
         data := [("refs", PyVal.strList ["Cyber Cell", "RBI Ombudsman"])] },
       { time := "12:07", title := "Evidence package created",
         data := [("items", PyVal.strList ["SMS", "UPI handle", "IP hash"])] },
       { time := "12:10", title := "Recovery workflow initiated",
         data := [("ticket", PyVal.str "BK-34219"), ("priority", PyVal.str "P1")] }] }

/-- One entry of the `/api/legal-docs` response (lines 81-84). -/
structure LegalDocument where
  id : String
  title : String
  purpose : String
  actions : List String
deriving DecidableEq

/-- The `/api/legal-docs` response shape (line 86). -/
structure DocsResponse where
  docs : List LegalDocument
deriving DecidableEq

/-- `legal_documents` from `main.py` lines 78-86: a constant four-entry list. -/
def legal_documents : DocsResponse :=
  { docs :=
      [{ id := "cyber_complaint", title := "Cyber Complaint Draft",
         purpose := "Pre-filled FIR-style complaint",
         actions := ["preview", "download", "send"] },
       { id := "rbi_letter", title := "RBI Ombudsman Letter",
         purpose := "Escalation note with annexures",
         actions := ["preview", "download", "send"] },
       { id := "bank_dispute", title := "Bank Dispute Form (Autofilled)",
         purpose := "Card/UPI chargeback workflow",
         actions := ["preview", "download", "send"] },
       { id := "reconstruction", title := "Fraud Reconstruction Summary",
         purpose := "Timeline + evidence bundle",
         actions := ["preview", "download", "send"] }] }

/-- The optional `database` module object `db` as `/test` observes it:
`name` is `some _` when `hasattr(db, 'name')` holds, and
`list_collection_names` either returns the collection names or raises
(an `Except.error` carrying `str(e)`). -/
structure Db where
  name : Option String
  list_collection_names : Except String (List String)

/-- What `from database import db` (line 103) can do: raise `ImportError`,
raise some other exception with message `msg`, or yield `db` (possibly
`None`). -/
inductive ImportOutcome where
  | importError
  | otherError (msg : String)
  | ok (db : Option Db)

/-- The process environment as read by `/test`: the raw values of
`DATABASE_URL` and `DATABASE_NAME` (`Option.none` when unset). -/
structure Env where
  databaseUrl : Option String
  databaseName : Option String

/-- Python truthiness of `os.getenv(...)`: `None` and the empty string are
falsy, every other string is truthy. -/
def envTruthy (o : Option String) : Bool :=
  match o with
  | Option.none => false
  | some s => !(s == "")

/-- `test_database` from `main.py` lines 89-131, faithful to the statement
order: build the default response dict, mutate it according to the import
attempt and the `db` probe, then overwrite `database_url` / `database_name`
from the environment variables. -/
def test_database (imp : ImportOutcome) (env : Env) : List (String × PyVal) :=
  let r0 : List (String × PyVal) :=
    [("backend", PyVal.str "✅ Running"),
     ("database", PyVal.str "❌ Not Available"),
     ("database_url", PyVal.null),
     ("database_name", PyVal.null),
     ("connection_status", PyVal.str "Not Connected"),
     ("collections", PyVal.strList [])]
  let r1 : List (String × PyVal) :=
    match imp with
    | ImportOutcome.importError =>
        dictSet r0 "database"
          (PyVal.str "❌ Database module not found (run enable-database first)")
    | ImportOutcome.otherError msg =>
        dictSet r0 "database" (PyVal.str ("❌ Error: " ++ msg.take 50))
    | ImportOutcome.ok Option.none =>
        dictSet r0 "database" (PyVal.str "⚠️  Available but not initialized")
    | ImportOutcome.ok (some db) =>
        let ra := dictSet r0 "database" (PyVal.str "✅ Available")
        let rb := dictSet ra "database_url" (PyVal.str "✅ Configured")
        let rc := dictSet rb "database_name"
          (PyVal.str (match db.name with
            | some n => n
            | Option.none => "✅ Connected"))
        let rd := dictSet rc "connection_status" (PyVal.str "Connected")
        match db.list_collection_names with
        | Except.ok cols =>
            dictSet (dictSet rd "collections" (PyVal.strList (cols.take 10)))
              "database" (PyVal.str "✅ Connected & Working")
        | Except.error e =>
            dictSet rd "database"
              (PyVal.str ("⚠️  Connected but Error: " ++ e.take 50))
  let r2 := dictSet r1 "database_url"
    (PyVal.str (if envTruthy env.databaseUrl then "✅ Set" else "❌ Not Set"))
  dictSet r2 "database_name"
    (PyVal.str (if envTruthy env.databaseName then "✅ Set" else "❌ Not Set"))

/-- Ambient process state observable by a handler during one request:
the formatted wall-clock time, the importability of the `database` module,
and the environment variables. -/
structure World where
  clock : String
  imp : ImportOutcome
  env : Env

/-- An incoming request to one of the app's routes; the simulate body carries
the raw JSON shapes of its two fields. -/
inductive Request where
  | root
  | hello
  | simulate (scenario speed : StrField)
  | timeline
  | legalDocs
  | test

/-- The body of a successful response. -/
inductive Response where
  | msg (m : String)
  | events (es : List SimulationEvent)
  | timeline (t : TimelineResponse)
  | docs (d : DocsResponse)
  | dict (d : List (String × PyVal))

/-- The app's routing from `main.py`: validate the body where one is declared,
then run the handler against the ambient world.  A validation failure is an
`Except.error` (FastAPI's 422 response). -/
def serve (r : Request) (w : World) : Except String Response :=
  match r with
  | Request.root => Except.ok (Response.msg "Hello from FastAPI Backend!")
  | Request.hello => Except.ok (Response.msg "Hello from the backend API!")
  | Request.simulate scen spd =>
      match SimulationRequest.validate scen spd with
      | Except.ok req => Except.ok (Response.events (run_simulation req w.clock))
      | Except.error e => Except.error e
  | Request.timeline => Except.ok (Response.timeline get_timeline)
  | Request.legalDocs => Except.ok (Response.docs legal_documents)
  | Request.test => Except.ok (Response.dict (test_database w.imp w.env))

/-- The spec's level-of-type mapping (§4.1): info→info, ingest→info,
detect→warn, freeze→critical, legal→success, recover→success. -/
def specLevelOf (ty : String) : String :=
  if ty = "info" then "info"
  else if ty = "ingest" then "info"
  else if ty = "detect" then "warn"
  else if ty = "freeze" then "critical"
  else if ty = "legal" then "success"
  else if ty = "recover" then "success"
  else ""

/-- C1 counterexample: a `POST /api/simulate` body whose `speed` is the string
`"ludicrous"` — outside `{slow, normal, fast}` — is accepted (no validation
error) and the six-event list is returned, contradicting the claim. -/
theorem simulate_ludicrous_accepted :
    (["slow", "normal", "fast"] : List String).contains "ludicrous" = false ∧
    serve (Request.simulate StrField.absent (StrField.str "ludicrous"))
        { clock := "12:00:00", imp := ImportOutcome.importError,
          env := { databaseUrl := Option.none, databaseName := Option.none } }
      = Except.ok (Response.events
          (run_simulation
            { scenario := some "upi_scam", speed := some "ludicrous" } "12:00:00")) ∧
    (run_simulation
      { scenario := some "upi_scam", speed := some "ludicrous" } "12:00:00").length
      = 6 := by
  refine ⟨by decide, rfl, rfl⟩

/-- C1 (amended): every request whose `speed` field is any JSON string passes
validation verbatim (the field is declared `Optional[str]`, not an enum), and
the standard six-event list is returned; the supplied value is kept on the
parsed request and never replaced by the default. -/
theorem simulate_any_speed_string_accepted (scen : StrField) (s : String)
    (w : World) :
    ∃ req : SimulationRequest,
      SimulationRequest.validate scen (StrField.str s) = Except.ok req ∧
      req.speed = some s ∧
      serve (Request.simulate scen (StrField.str s)) w
        = Except.ok (Response.events (run_simulation req w.clock)) ∧
      (run_simulation req w.clock).length = 6 := by
  cases scen <;> exact ⟨_, rfl, rfl, rfl, rfl⟩

/-- C2: for every accepted request, `run_simulation` returns exactly 6 events
whose `type` fields in order are `[info, ingest, detect, freeze, legal,
recover]`, whose `level` fields in order are `[info, info, warn, critical,
success, success]`, and each event's level equals the deterministic function
of its type. -/
theorem run_simulation_shape (req : SimulationRequest) (now : String) :
    (run_simulation req now).length = 6 ∧
    (run_simulation req now).map SimulationEvent.type
      = ["info", "ingest", "detect", "freeze", "legal", "recover"] ∧
    (run_simulation req now).map SimulationEvent.level
      = ["info", "info", "warn", "critical", "success", "success"] ∧
    (run_simulation req now).all
      (fun e => e.level == specLevelOf e.type) = true := by
  refine ⟨rfl, rfl, rfl, rfl⟩

/-- C3: within one call to `run_simulation`, all 6 emitted events carry the
identical timestamp `now` computed once for the request. -/
theorem run_simulation_shared_timestamp (req : SimulationRequest)
    (now : String) :
    (run_simulation req now).map SimulationEvent.t = List.replicate 6 now := by
  rfl

/-- C4: any two accepted requests yield event lists that agree on every field
except possibly `t`: the `(type, message, level)` projections coincide
regardless of scenario and speed. -/
theorem run_simulation_input_independent (req1 req2 : SimulationRequest)
    (now1 now2 : String) :
    (run_simulation req1 now1).map (fun e => (e.type, e.message, e.level))
      = (run_simulation req2 now2).map (fun e => (e.type, e.message, e.level)) := by
  rfl

/-- C5: when `DATABASE_URL` and `DATABASE_NAME` are unset and the `database`
module is not importable, `GET /test` reports `database_url` and
`database_name` as `"❌ Not Set"`, and the handler returns a response
(it is a total function; all data-store errors are rendered as strings). -/
theorem test_database_not_configured (imp : ImportOutcome) (env : Env)
    (hu : env.databaseUrl = Option.none) (hn : env.databaseName = Option.none)
    (hi : imp = ImportOutcome.importError) :
    dictGet (test_database imp env) "database_url"
      = some (PyVal.str "❌ Not Set") ∧
    dictGet (test_database imp env) "database_name"
      = some (PyVal.str "❌ Not Set") ∧
    serve Request.test { clock := "00:00:00", imp := imp, env := env }
      = Except.ok (Response.dict (test_database imp env)) := by
  obtain ⟨u, n⟩ := env
  subst hi
  simp only at hu hn
  subst hu hn
  exact ⟨rfl, rfl, rfl⟩

/-- Witness for C5 at the concrete unconfigured environment. -/
theorem test_database_not_configured_witness :
    dictGet
        (test_database ImportOutcome.importError
          { databaseUrl := Option.none, databaseName := Option.none })
        "database_url" = some (PyVal.str "❌ Not Set") ∧
    dictGet
        (test_database ImportOutcome.importError
          { databaseUrl := Option.none, databaseName := Option.none })
        "database_name" = some (PyVal.str "❌ Not Set") ∧
    serve Request.test
        { clock := "00:00:00", imp := ImportOutcome.importError,
          env := { databaseUrl := Option.none, databaseName := Option.none } }
      = Except.ok
          (Response.dict
            (test_database ImportOutcome.importError
              { databaseUrl := Option.none, databaseName := Option.none })) :=
  test_database_not_configured ImportOutcome.importError
    { databaseUrl := Option.none, databaseName := Option.none } rfl rfl rfl

/-- C6: `get_timeline` always returns exactly 6 items in fixed order; the
first item's title is "Fraud request created" and the last item's title is
"Recovery workflow initiated". -/
theorem get_timeline_shape :
    get_timeline.items.length = 6 ∧
    get_timeline.items.map TimelineItem.title
      = ["Fraud request created", "AFSA detected mismatch", "UPI frozen",
         "Complaint drafted", "Evidence package created",
         "Recovery workflow initiated"] ∧
    get_timeline.items.head?.map TimelineItem.title
      = some "Fraud request created" ∧
    get_timeline.items.getLast?.map TimelineItem.title
      = some "Recovery workflow initiated" := by
  refine ⟨rfl, rfl, rfl, rfl⟩

/-- C7: `legal_documents` always returns exactly 4 documents, and every
document's `actions` field equals `["preview", "download", "send"]`. -/
theorem legal_documents_shape :
    legal_documents.docs.length = 4 ∧
    legal_documents.docs.all
      (fun d => d.actions == ["preview", "download", "send"]) = true := by
  refine ⟨rfl, by decide⟩

/-- C8: `GET /api/timeline` and `GET /api/legal-docs` are idempotent within
one process: serving the same route against any two process states returns
identical payloads (the handlers read no ambient state). -/
theorem timeline_and_docs_idempotent (w1 w2 : World) :
    serve Request.timeline w1 = serve Request.timeline w2 ∧
    serve Request.legalDocs w1 = serve Request.legalDocs w2 :=
  ⟨rfl, rfl⟩

/-- C9: every `GET /test` response, for every import outcome and environment,
is a mapping with exactly the six keys `backend`, `database`, `database_url`,
`database_name`, `connection_status`, `collections`, in that order. -/
theorem test_database_keys (imp : ImportOutcome) (env : Env) :
    (test_database imp env).map Prod.fst
      = ["backend", "database", "database_url", "database_name",
         "connection_status", "collections"] := by
  cases imp with
  | importError => simp [test_database, dictSet]
  | otherError msg => simp [test_database, dictSet]
  | ok db =>
      cases db with
      | none => simp [test_database, dictSet]
      | some d =>
          obtain ⟨nm, cols⟩ := d
          cases cols <;> simp [test_database, dictSet]

/-- C10: the `collections` field of every `GET /test` response is a list of
length at most 10, and when the data store reports a list of collections the
field holds exactly its first 10 entries. -/
theorem test_database_collections_truncated :
    (∀ (imp : ImportOutcome) (env : Env),
      ∃ l : List String,
        dictGet (test_database imp env) "collections"
          = some (PyVal.strList l) ∧ l.length ≤ 10) ∧
    (∀ (nm : Option String) (cols : List String) (env : Env),
      dictGet
          (test_database
            (ImportOutcome.ok
              (some { name := nm, list_collection_names := Except.ok cols }))
            env)
          "collections"
        = some (PyVal.strList (cols.take 10))) := by
  constructor
  · intro imp env
    cases imp with
    | importError =>
        exact ⟨[], by simp [test_database, dictSet, dictGet], by simp⟩
    | otherError msg =>
        exact ⟨[], by simp [test_database, dictSet, dictGet], by simp⟩
    | ok db =>
        cases db with
        | none =>
            exact ⟨[], by simp [test_database, dictSet, dictGet], by simp⟩
        | some d =>
            obtain ⟨nm, cols⟩ := d
            cases cols with
            | ok cs =>
                exact ⟨cs.take 10,
                  by simp [test_database, dictSet, dictGet],
                  List.length_take_le 10 cs⟩
            | error e =>
                exact ⟨[], by simp [test_database, dictSet, dictGet], by simp⟩
  · intro nm cols env
    simp [test_database, dictSet, dictGet]
